import Mathlib

/-!
Verification development for the heaven-trading-bot repository (Rust).

The Rust sources are shallowly embedded in Lean 4:
* `f64` arithmetic is modelled as exact rational arithmetic over `ℚ`;
* every Rust `as u64` cast of an `f64` is modelled by `rustAsU64`
  (truncation toward zero, saturating at the `u64` range);
* `u64` / `usize` values are modelled as `ℕ`, timestamps as `ℤ` (milliseconds);
* fallible operations (`Result<_, BotError>`) are modelled with `Except`;
* external collaborators (RPC client, database, exchange adapter) are passed
  in as explicit arguments holding the outcome of each call, so that the
  control flow of the embedded function is exactly that of the source.

Each embedded definition names the Rust item it is translated from.
-/

namespace HeavenBot

/-- Rust `expr as u64` applied to an `f64` value (modelled as an exact `ℚ`):
truncation toward zero for non-negative values, negative values clamp to `0`,
values beyond the `u64` range saturate at `2 ^ 64 - 1`. -/
def rustAsU64 (q : ℚ) : ℕ := min ⌊q⌋.toNat (2 ^ 64 - 1)

/-- A saturating truncation never exceeds the (non-negative) value it truncates. -/
theorem rustAsU64_le (q : ℚ) (hq : 0 ≤ q) : (rustAsU64 q : ℚ) ≤ q := by
  unfold rustAsU64
  have h0 : (0 : ℤ) ≤ ⌊q⌋ := Int.floor_nonneg.mpr hq
  have h1 : ((⌊q⌋.toNat : ℤ) : ℚ) ≤ q := by
    rw [Int.toNat_of_nonneg h0]
    exact Int.floor_le q
  calc ((min ⌊q⌋.toNat (2 ^ 64 - 1) : ℕ) : ℚ) ≤ ((⌊q⌋.toNat : ℕ) : ℚ) := by
        exact_mod_cast Nat.cast_le.mpr (Nat.min_le_left _ _)
    _ ≤ q := by exact_mod_cast h1

/-- `BotError` (src/src/error.rs): the error taxonomy of the bot. -/
inductive BotError where
  | Config (msg : String)
  | SolanaRpc (msg : String)
  | HeavenSdk (msg : String)
  | Transaction (msg : String)
  | Token (msg : String)
  | Database (msg : String)
  | Network (msg : String)
  | Validation (msg : String)
  | InsufficientBalance (msg : String)
  | PoolNotFound (msg : String)
  | InvalidQuote (msg : String)
  | SlippageExceeded (msg : String)
  | RateLimitExceeded (msg : String)
  | Unauthorized (msg : String)
  | Internal (msg : String)
  deriving DecidableEq

/-- `TokenInfo` (src/src/types.rs): per-token market information; the quote engine
reads only `liquidity_sol`, the remaining numeric fields are carried along. -/
structure TokenInfo where
  mint : String
  name : String
  symbol : String
  decimals : ℕ
  supply : ℕ
  price : ℚ
  market_cap : ℚ
  volume_24h : ℚ
  liquidity_sol : ℚ
  price_change_24h : ℚ
  last_updated : ℤ
  deriving DecidableEq

/-- `PoolState` (src/src/types.rs): the AMM pool state returned by
`HeavenClient::get_pool_state`. -/
structure PoolState where
  token_a : TokenInfo
  token_b : TokenInfo
  liquidity : ℚ
  fee_rate : ℚ
  protocol_fee_rate : ℚ
  creator_fee_rate : ℚ
  last_swap_time : ℤ
  total_volume : ℚ
  total_fees : ℚ
  deriving DecidableEq

/-- `TradeQuote` (src/src/types.rs). -/
structure TradeQuote where
  token_amount : ℚ
  sol_amount : ℚ
  price : ℚ
  slippage : ℚ
  fee : ℚ
  fee_pct : ℚ
  deriving DecidableEq

/-- Body of `HeavenClient::get_buy_quote` (src/src/heaven_client.rs:110-141), after the
`get_pool_state` RPC call has produced the pool state `p`. -/
def buy_quote (p : PoolState) (sol_amount max_slippage : ℚ) : TradeQuote :=
  let sol_lamports : ℕ := rustAsU64 (sol_amount * 1000000000)
  let sol_reserve : ℚ := p.token_b.liquidity_sol * 1000000000
  let token_reserve : ℚ := p.token_a.liquidity_sol * 1000000000
  let total_fee_rate : ℚ := p.fee_rate + p.protocol_fee_rate + p.creator_fee_rate
  let fee_amount : ℕ := rustAsU64 ((sol_lamports : ℚ) * total_fee_rate)
  let sol_after_fees : ℕ := sol_lamports - fee_amount
  let token_output : ℚ :=
    token_reserve * (sol_after_fees : ℚ) / (sol_reserve + (sol_after_fees : ℚ))
  let min_token_output : ℚ := token_output * (1 - max_slippage)
  let price : ℚ := sol_amount / (token_output / 1000000000)
  { token_amount := min_token_output / 1000000000
    sol_amount := sol_amount
    price := price
    slippage := total_fee_rate
    fee := (fee_amount : ℚ) / 1000000000
    fee_pct := total_fee_rate }

/-- `HeavenClient::get_buy_quote` (src/src/heaven_client.rs:102-142). `pool_state` is the
result of the `get_pool_state` call lifted with `?`; no other error exit exists in the
source body. -/
def get_buy_quote (pool_state : Except BotError PoolState)
    (sol_amount max_slippage : ℚ) : Except BotError TradeQuote :=
  pool_state.map (fun p => buy_quote p sol_amount max_slippage)

/-- Body of `HeavenClient::get_sell_quote` (src/src/heaven_client.rs:152-185), after the
`get_pool_state` RPC call has produced the pool state `p`. -/
def sell_quote (p : PoolState) (token_amount max_slippage : ℚ) : TradeQuote :=
  let token_base_units : ℕ := rustAsU64 (token_amount * 1000000000)
  let sol_reserve : ℚ := p.token_b.liquidity_sol * 1000000000
  let token_reserve : ℚ := p.token_a.liquidity_sol * 1000000000
  let total_fee_rate : ℚ := p.fee_rate + p.protocol_fee_rate + p.creator_fee_rate
  let sol_output : ℚ :=
    sol_reserve * (token_base_units : ℚ) / (token_reserve + (token_base_units : ℚ))
  let fee_amount : ℕ := rustAsU64 (sol_output * total_fee_rate)
  let sol_after_fees : ℚ := sol_output - (fee_amount : ℚ)
  let min_sol_output : ℚ := sol_after_fees * (1 - max_slippage)
  let price : ℚ := (sol_after_fees / 1000000000) / token_amount
  { token_amount := token_amount
    sol_amount := min_sol_output / 1000000000
    price := price
    slippage := total_fee_rate
    fee := (fee_amount : ℚ) / 1000000000
    fee_pct := total_fee_rate }

/-- `HeavenClient::get_sell_quote` (src/src/heaven_client.rs:144-186). -/
def get_sell_quote (pool_state : Except BotError PoolState)
    (token_amount max_slippage : ℚ) : Except BotError TradeQuote :=
  pool_state.map (fun p => sell_quote p token_amount max_slippage)

/-- A pool whose base-asset and quote-asset reserves are both zero; all other fields
follow the mock pool built by `HeavenClient::get_pool_state`
(src/src/heaven_client.rs:220-254). -/
def zeroReservePool : PoolState :=
  { token_a :=
      { mint := "TKNMint111"
        name := "Token"
        symbol := "TKN"
        decimals := 9
        supply := 1000000000
        price := 1/1000
        market_cap := 1000
        volume_24h := 100
        liquidity_sol := 0
        price_change_24h := 0
        last_updated := 0 }
    token_b :=
      { mint := "So11111111111111111111111111111111111111112"
        name := "Wrapped SOL"
        symbol := "SOL"
        decimals := 9
        supply := 0
        price := 1
        market_cap := 0
        volume_24h := 0
        liquidity_sol := 0
        price_change_24h := 0
        last_updated := 0 }
    liquidity := 0
    fee_rate := 3/1000
    protocol_fee_rate := 1/400
    creator_fee_rate := 1/1000
    last_swap_time := 0
    total_volume := 100
    total_fees := 1/2 }

/-- C1 (code bug witness). The source of `get_buy_quote` / `get_sell_quote`
(src/src/heaven_client.rs:102-186) contains no reserve or output validation at all:
called on a pool whose reserves are both zero, each function still returns `Ok` with a
quote whose output amount is `0` (and never the `InvalidQuote` error the spec requires,
even though `BotError::InvalidQuote` is declared in src/src/error.rs). -/
theorem get_quote_zero_reserves_returns_ok :
    (get_buy_quote (Except.ok zeroReservePool) 1 (1/100)).isOk = true
    ∧ (∃ q, get_buy_quote (Except.ok zeroReservePool) 1 (1/100) = Except.ok q
        ∧ q.token_amount = 0)
    ∧ (get_sell_quote (Except.ok zeroReservePool) 1 (1/100)).isOk = true
    ∧ (∃ q, get_sell_quote (Except.ok zeroReservePool) 1 (1/100) = Except.ok q
        ∧ q.sol_amount = 0) := by
  have hz : rustAsU64 0 = 0 := by
    simp [rustAsU64]
  refine ⟨rfl, ⟨buy_quote zeroReservePool 1 (1/100), rfl, ?_⟩,
          rfl, ⟨sell_quote zeroReservePool 1 (1/100), rfl, ?_⟩⟩
  · simp only [buy_quote, zeroReservePool]
    norm_num
  · simp only [sell_quote, zeroReservePool]
    norm_num [hz]

/-- C2: for a pool with strictly positive reserves and a total fee rate in `[0,1)`,
buying with a positive SOL amount and then selling the quoted token amount against the
same pool state returns at most the original SOL amount (fees and price impact are
lossy), and every monetary field of both quotes (`token_amount`, `sol_amount`, `fee`)
is non-negative. The slippage tolerances are fractions in `[0,1]` as configured. -/
theorem quote_round_trip_lossy (p : PoolState) (sol_amount σb σs : ℚ)
    (hx : 0 < p.token_b.liquidity_sol) (hy : 0 < p.token_a.liquidity_sol)
    (ht0 : 0 ≤ p.fee_rate + p.protocol_fee_rate + p.creator_fee_rate)
    (ht1 : p.fee_rate + p.protocol_fee_rate + p.creator_fee_rate < 1)
    (hs : 0 < sol_amount)
    (hσb0 : 0 ≤ σb) (hσb1 : σb ≤ 1) (hσs0 : 0 ≤ σs) (hσs1 : σs ≤ 1) :
    (sell_quote p (buy_quote p sol_amount σb).token_amount σs).sol_amount ≤ sol_amount
    ∧ 0 ≤ (buy_quote p sol_amount σb).token_amount
    ∧ 0 ≤ (buy_quote p sol_amount σb).sol_amount
    ∧ 0 ≤ (buy_quote p sol_amount σb).fee
    ∧ 0 ≤ (sell_quote p (buy_quote p sol_amount σb).token_amount σs).token_amount
    ∧ 0 ≤ (sell_quote p (buy_quote p sol_amount σb).token_amount σs).sol_amount
    ∧ 0 ≤ (sell_quote p (buy_quote p sol_amount σb).token_amount σs).fee := by
  set t := p.fee_rate + p.protocol_fee_rate + p.creator_fee_rate with htd
  set x9 := p.token_b.liquidity_sol * 1000000000 with hx9d
  set y9 := p.token_a.liquidity_sol * 1000000000 with hy9d
  have hx9 : 0 < x9 := by rw [hx9d]; exact mul_pos hx (by norm_num)
  have hy9 : 0 < y9 := by rw [hy9d]; exact mul_pos hy (by norm_num)
  set L := rustAsU64 (sol_amount * 1000000000) with hLd
  set feeb := rustAsU64 ((L : ℚ) * t) with hfd
  set A := L - feeb with hAd
  have hA_le_L : (A : ℚ) ≤ (L : ℚ) := by
    rw [hAd]; exact_mod_cast Nat.sub_le L feeb
  have hL_le : (L : ℚ) ≤ sol_amount * 1000000000 := by
    rw [hLd]
    exact rustAsU64_le _ (mul_nonneg hs.le (by norm_num))
  have hA0 : (0 : ℚ) ≤ (A : ℚ) := Nat.cast_nonneg A
  have hden1 : 0 < x9 + (A : ℚ) := by linarith
  set Tout := y9 * (A : ℚ) / (x9 + (A : ℚ)) with hToutd
  have hTout0 : 0 ≤ Tout := by
    rw [hToutd]; exact div_nonneg (mul_nonneg hy9.le hA0) hden1.le
  have hTout_le : Tout ≤ y9 * (A : ℚ) / x9 := by
    rw [hToutd]
    exact div_le_div_of_nonneg_left (mul_nonneg hy9.le hA0) hx9 (by linarith)
  have hq1tok : (buy_quote p sol_amount σb).token_amount
      = Tout * (1 - σb) / 1000000000 := rfl
  have hq1tok0 : 0 ≤ (buy_quote p sol_amount σb).token_amount := by
    rw [hq1tok]
    exact div_nonneg (mul_nonneg hTout0 (by linarith)) (by norm_num)
  set B := rustAsU64 ((buy_quote p sol_amount σb).token_amount * 1000000000) with hBd
  have hB_le1 : (B : ℚ) ≤ (buy_quote p sol_amount σb).token_amount * 1000000000 := by
    rw [hBd]
    exact rustAsU64_le _ (mul_nonneg hq1tok0 (by norm_num))
  have harg : (buy_quote p sol_amount σb).token_amount * 1000000000 = Tout * (1 - σb) := by
    rw [hq1tok]
    field_simp
  have hB_le_T : (B : ℚ) ≤ Tout := by
    rw [harg] at hB_le1
    calc (B : ℚ) ≤ Tout * (1 - σb) := hB_le1
      _ ≤ Tout := mul_le_of_le_one_right hTout0 (by linarith)
  have hB0 : (0 : ℚ) ≤ (B : ℚ) := Nat.cast_nonneg B
  have hdenB : 0 < y9 + (B : ℚ) := by linarith
  set solOut := x9 * (B : ℚ) / (y9 + (B : ℚ)) with hsod
  have hsolOut0 : 0 ≤ solOut := by
    rw [hsod]; exact div_nonneg (mul_nonneg hx9.le hB0) hdenB.le
  have hsolOut_le_A : solOut ≤ (A : ℚ) := by
    have h1 : solOut ≤ x9 * (B : ℚ) / y9 := by
      rw [hsod]
      exact div_le_div_of_nonneg_left (mul_nonneg hx9.le hB0) hy9 (by linarith)
    have h2 : (B : ℚ) ≤ y9 * (A : ℚ) / x9 := le_trans hB_le_T hTout_le
    have h3 : x9 * (B : ℚ) ≤ y9 * (A : ℚ) := by
      have h31 := mul_le_mul_of_nonneg_left h2 hx9.le
      have h32 : x9 * (y9 * (A : ℚ) / x9) = y9 * (A : ℚ) := by
        field_simp
      linarith
    have h4 : x9 * (B : ℚ) / y9 ≤ y9 * (A : ℚ) / y9 :=
      div_le_div_of_nonneg_right h3 hy9.le
    have h5 : y9 * (A : ℚ) / y9 = (A : ℚ) := by
      field_simp
    linarith
  set feeS := rustAsU64 (solOut * t) with hfsd
  have hfeeS_le : (feeS : ℚ) ≤ solOut := by
    have h1 : (feeS : ℚ) ≤ solOut * t := by
      rw [hfsd]; exact rustAsU64_le _ (mul_nonneg hsolOut0 ht0)
    calc (feeS : ℚ) ≤ solOut * t := h1
      _ ≤ solOut := mul_le_of_le_one_right hsolOut0 ht1.le
  have hfeeS0 : (0 : ℚ) ≤ (feeS : ℚ) := Nat.cast_nonneg feeS
  have hq2sol : (sell_quote p (buy_quote p sol_amount σb).token_amount σs).sol_amount
      = (solOut - (feeS : ℚ)) * (1 - σs) / 1000000000 := rfl
  have hafter0 : 0 ≤ solOut - (feeS : ℚ) := by linarith
  have hfinal : (solOut - (feeS : ℚ)) * (1 - σs) / 1000000000 ≤ sol_amount := by
    have h1 : (solOut - (feeS : ℚ)) * (1 - σs) ≤ solOut - (feeS : ℚ) :=
      mul_le_of_le_one_right hafter0 (by linarith)
    have h2 : solOut - (feeS : ℚ) ≤ sol_amount * 1000000000 := by linarith
    have h3 : (solOut - (feeS : ℚ)) * (1 - σs) / 1000000000
        ≤ sol_amount * 1000000000 / 1000000000 :=
      div_le_div_of_nonneg_right (by linarith) (by norm_num)
    have h4 : sol_amount * 1000000000 / 1000000000 = sol_amount := by
      rw [mul_div_assoc]
      norm_num
    linarith
  refine ⟨?_, hq1tok0, ?_, ?_, ?_, ?_, ?_⟩
  · rw [hq2sol]; exact hfinal
  · have h : (buy_quote p sol_amount σb).sol_amount = sol_amount := rfl
    rw [h]; exact hs.le
  · have h : (buy_quote p sol_amount σb).fee = (feeb : ℚ) / 1000000000 := rfl
    rw [h]
    exact div_nonneg (Nat.cast_nonneg feeb) (by norm_num)
  · have h : (sell_quote p (buy_quote p sol_amount σb).token_amount σs).token_amount
        = (buy_quote p sol_amount σb).token_amount := rfl
    rw [h]; exact hq1tok0
  · rw [hq2sol]
    exact div_nonneg (mul_nonneg hafter0 (by linarith)) (by norm_num)
  · have h : (sell_quote p (buy_quote p sol_amount σb).token_amount σs).fee
        = (feeS : ℚ) / 1000000000 := rfl
    rw [h]
    exact div_nonneg hfeeS0 (by norm_num)

/-- The mock pool state built by `HeavenClient::get_pool_state`
(src/src/heaven_client.rs:220-254): reserves of 1 SOL on each side, fee rates
0.3% + 0.25% + 0.1%. -/
def mockPool : PoolState :=
  { token_a :=
      { mint := "TKNMint111"
        name := "Token"
        symbol := "TKN"
        decimals := 9
        supply := 1000000000
        price := 1/1000
        market_cap := 1000
        volume_24h := 100
        liquidity_sol := 1
        price_change_24h := 0
        last_updated := 0 }
    token_b :=
      { mint := "So11111111111111111111111111111111111111112"
        name := "Wrapped SOL"
        symbol := "SOL"
        decimals := 9
        supply := 0
        price := 1
        market_cap := 0
        volume_24h := 0
        liquidity_sol := 1
        price_change_24h := 0
        last_updated := 0 }
    liquidity := 1
    fee_rate := 3/1000
    protocol_fee_rate := 1/400
    creator_fee_rate := 1/1000
    last_swap_time := 0
    total_volume := 100
    total_fees := 1/2 }

/-- Witness for C2 at the mock pool, 0.1 SOL trade, 1% slippage tolerance. -/
theorem quote_round_trip_lossy_witness :
    ((0 : ℚ) < mockPool.token_b.liquidity_sol
      ∧ (0 : ℚ) < mockPool.token_a.liquidity_sol
      ∧ (0 : ℚ) ≤ mockPool.fee_rate + mockPool.protocol_fee_rate + mockPool.creator_fee_rate
      ∧ mockPool.fee_rate + mockPool.protocol_fee_rate + mockPool.creator_fee_rate < 1
      ∧ (0 : ℚ) < 1/10 ∧ (0 : ℚ) ≤ 1/100 ∧ (1/100 : ℚ) ≤ 1)
    ∧ (sell_quote mockPool (buy_quote mockPool (1/10) (1/100)).token_amount
        (1/100)).sol_amount ≤ 1/10
    ∧ 0 ≤ (buy_quote mockPool (1/10) (1/100)).token_amount := by
  have h1 : (0 : ℚ) < mockPool.token_b.liquidity_sol := by norm_num [mockPool]
  have h2 : (0 : ℚ) < mockPool.token_a.liquidity_sol := by norm_num [mockPool]
  have h3 : (0 : ℚ) ≤ mockPool.fee_rate + mockPool.protocol_fee_rate
      + mockPool.creator_fee_rate := by norm_num [mockPool]
  have h4 : mockPool.fee_rate + mockPool.protocol_fee_rate
      + mockPool.creator_fee_rate < 1 := by norm_num [mockPool]
  have hmain := quote_round_trip_lossy mockPool (1/10) (1/100) (1/100)
    h1 h2 h3 h4 (by norm_num) (by norm_num) (by norm_num) (by norm_num) (by norm_num)
  exact ⟨⟨h1, h2, h3, h4, by norm_num, by norm_num, by norm_num⟩,
    hmain.1, hmain.2.1⟩

/-- `BundlerConfig` (src/src/config.rs). -/
structure BundlerConfig where
  enabled : Bool
  max_bundle_size : ℕ
  max_bundle_time_ms : ℕ
  priority_fee_multiplier : ℚ
  target_block : Option ℕ
  auto_submit : Bool
  bundle_validation : Bool
  deriving DecidableEq

/-- `BundleTransaction` (src/src/types.rs); on-chain instructions are opaque handles. -/
structure BundleTransaction where
  id : String
  instructions : List ℕ
  signers : List String
  fee_payer : String
  compute_units : ℕ
  priority_fee : ℕ
  deriving DecidableEq

/-- `Bundle` (src/src/types.rs); `created_at` in ms, `status` is the source's
string-valued lifecycle field. -/
structure Bundle where
  id : String
  transactions : List BundleTransaction
  created_at : ℤ
  target_block : Option ℕ
  priority_fee : ℕ
  status : String
  bundle_signature : Option String
  deriving DecidableEq

/-- `BundleResult` (src/src/types.rs). -/
structure BundleResult where
  bundle_id : String
  bundle_signature : String
  success : Bool
  error : Option String
  submitted_at : ℤ
  confirmed_at : Option ℤ
  total_transactions : ℕ
  priority_fee : ℕ
  deriving DecidableEq

/-- `BundlerBot::calculate_priority_fee` (src/src/bundler.rs:367-385).
`recent_prioritization_fees` is the list returned by the
`get_recent_prioritization_fees` RPC call (the code reads its first entry as the
most recent network fee, falling back to the configured base fee when empty);
`base_fee` is `config.heaven.compute_unit_price` and `multiplier` is
`config.bundler.priority_fee_multiplier`. -/
def calculate_priority_fee (base_fee : ℕ) (multiplier : ℚ)
    (recent_prioritization_fees : List ℕ) : ℕ :=
  let network_fee : ℕ :=
    match recent_prioritization_fees.head? with
    | some fees => fees
    | none => base_fee
  rustAsU64 (max ((base_fee : ℚ) * multiplier) (network_fee : ℚ))

/-- C3 (counterexample): `calculate_priority_fee` truncates the `f64` maximum to `u64`,
so for a fractional `base_fee × multiplier` the returned fee is NOT the exact maximum
of the claim: with base fee 101, multiplier 1.5 and most recent network fee 0 the code
returns 151, not `max(151.5, 0) = 151.5`. -/
theorem calculate_priority_fee_not_exact_max :
    calculate_priority_fee 101 (3/2) [0] = 151
    ∧ ((calculate_priority_fee 101 (3/2) [0] : ℚ)
        ≠ max ((101 : ℚ) * (3/2)) (((0 : ℕ) : ℚ))) := by
  have hfloor : ⌊(303/2 : ℚ)⌋ = 151 := by
    rw [show (303/2 : ℚ) = ((303 : ℤ) : ℚ) / ((2 : ℕ) : ℚ) by norm_num]
    rw [Rat.floor_intCast_div_natCast]
    norm_num
  have hmax : (((101 : ℕ) : ℚ) * (3/2)) ⊔ (((0 : ℕ) : ℚ)) = 303/2 := by
    rw [max_eq_left (by push_cast; norm_num)]
    push_cast
    norm_num
  have heval : calculate_priority_fee 101 (3/2) [0] = 151 := by
    unfold calculate_priority_fee rustAsU64
    simp only [List.head?]
    rw [hmax, hfloor]
    norm_num
    decide
  refine ⟨heval, ?_⟩
  rw [heval]
  norm_num

/-- C3 (amended): with a non-empty network fee list, `calculate_priority_fee` returns
`max(⌊base_fee × multiplier⌋, most_recent_network_fee)` — the claimed maximum rounded
down by the `u64` cast — provided the inputs are within `u64` range and the multiplier
is non-negative. -/
theorem calculate_priority_fee_floor_max (base_fee f : ℕ) (multiplier : ℚ)
    (rest : List ℕ)
    (hbase : (base_fee : ℚ) * multiplier ≤ 2 ^ 64 - 1)
    (hf : f ≤ 2 ^ 64 - 1) :
    calculate_priority_fee base_fee multiplier (f :: rest)
      = max (⌊(base_fee : ℚ) * multiplier⌋.toNat) f := by
  unfold calculate_priority_fee rustAsU64
  simp only [List.head?]
  rcases le_total ((base_fee : ℚ) * multiplier) ((f : ℕ) : ℚ) with h | h
  · rw [max_eq_right h]
    have hfl : ⌊((f : ℕ) : ℚ)⌋ = (f : ℤ) := Int.floor_natCast f
    rw [hfl]
    have htn : ((f : ℤ)).toNat = f := Int.toNat_natCast f
    rw [htn]
    have hmin : min f (2 ^ 64 - 1) = f := min_eq_left hf
    rw [hmin]
    have hle : ⌊(base_fee : ℚ) * multiplier⌋.toNat ≤ f := by
      have h1 : ⌊(base_fee : ℚ) * multiplier⌋ ≤ ⌊((f : ℕ) : ℚ)⌋ := Int.floor_le_floor h
      rw [hfl] at h1
      calc ⌊(base_fee : ℚ) * multiplier⌋.toNat ≤ ((f : ℤ)).toNat :=
            Int.toNat_le_toNat h1
        _ = f := htn
    exact (max_eq_right hle).symm
  · rw [max_eq_left h]
    have hup : ⌊(base_fee : ℚ) * multiplier⌋.toNat ≤ 2 ^ 64 - 1 := by
      rw [Int.toNat_le]
      calc ⌊(base_fee : ℚ) * multiplier⌋ ≤ ⌊((2 ^ 64 - 1 : ℕ) : ℚ)⌋ := by
            apply Int.floor_le_floor
            push_cast
            convert hbase using 2
            norm_num
        _ = ((2 ^ 64 - 1 : ℕ) : ℤ) := Int.floor_natCast _
    rw [min_eq_left hup]
    have hge : f ≤ ⌊(base_fee : ℚ) * multiplier⌋.toNat := by
      have h1 : ((f : ℤ)) ≤ ⌊(base_fee : ℚ) * multiplier⌋ := by
        apply Int.le_floor.mpr
        exact_mod_cast h
      calc f = ((f : ℤ)).toNat := (Int.toNat_natCast f).symm
        _ ≤ ⌊(base_fee : ℚ) * multiplier⌋.toNat := Int.toNat_le_toNat h1
    exact (max_eq_left hge).symm

/-- Witness for C3 (amended) at the spec's two examples: base fee 100, multiplier 1.5,
network fee 200 gives 200; network fee 50 gives 150. -/
theorem calculate_priority_fee_witness :
    calculate_priority_fee 100 (3/2) [200] = 200
    ∧ calculate_priority_fee 100 (3/2) [50] = 150 := by
  have hfl : ⌊((100 : ℕ) : ℚ) * (3/2)⌋.toNat = 150 := by
    rw [show ((100 : ℕ) : ℚ) * (3/2) = (((150 : ℕ) : ℤ) : ℚ) by push_cast; norm_num,
      Int.floor_intCast]
    rfl
  have h1 := calculate_priority_fee_floor_max 100 200 (3/2) []
    (by push_cast; norm_num) (by norm_num)
  have h2 := calculate_priority_fee_floor_max 100 50 (3/2) []
    (by push_cast; norm_num) (by norm_num)
  constructor
  · rw [h1, hfl]
    decide
  · rw [h2, hfl]
    decide

/-- Fresh bundle created in `BundlerBot::add_transaction_to_bundle`
(src/src/bundler.rs:121-130); `fresh_id`, `now` and `priority_fee` carry the results of
the `uuid::Uuid::new_v4`, `Utc::now()` and `calculate_priority_fee` effects. -/
def new_pending_bundle (fresh_id : String) (now : ℤ) (target_block : Option ℕ)
    (priority_fee : ℕ) (transaction : BundleTransaction) : Bundle :=
  { id := fresh_id
    transactions := [transaction]
    created_at := now
    target_block := target_block
    priority_fee := priority_fee
    status := "pending"
    bundle_signature := none }

/-- `BundlerBot::add_transaction_to_bundle` (src/src/bundler.rs:109-136): the transaction
is pushed onto the most recently opened bundle (`pending_bundles.last_mut()`) when that
bundle has spare capacity (`len < max_bundle_size`); otherwise a fresh one-transaction
bundle is appended. -/
def add_transaction_to_bundle (max_bundle_size : ℕ) (fresh_id : String) (now : ℤ)
    (target_block : Option ℕ) (priority_fee : ℕ)
    (pending_bundles : List Bundle) (transaction : BundleTransaction) : List Bundle :=
  match pending_bundles.getLast? with
  | some bundle =>
    if bundle.transactions.length < max_bundle_size then
      pending_bundles.dropLast
        ++ [{ bundle with transactions := bundle.transactions ++ [transaction] }]
    else
      pending_bundles
        ++ [new_pending_bundle fresh_id now target_block priority_fee transaction]
  | none =>
    pending_bundles
      ++ [new_pending_bundle fresh_id now target_block priority_fee transaction]

/-- Invariant of pending-bundle lists built by `add_transaction_to_bundle` from the
empty list: every bundle except the most recent is exactly full, and the most recent
one is non-empty and within capacity. -/
def bundlesWellFormed (k : ℕ) (bs : List Bundle) : Prop :=
  (∀ b ∈ bs.dropLast, b.transactions.length = k)
  ∧ ∀ b, bs.getLast? = some b →
      1 ≤ b.transactions.length ∧ b.transactions.length ≤ k

theorem mem_dropLast_or_getLast_eq {α : Type _} (l : List α) (x : α) (hx : x ∈ l) :
    x ∈ l.dropLast ∨ l.getLast? = some x := by
  rcases List.eq_nil_or_concat' l with rfl | ⟨l', a, rfl⟩
  · simp at hx
  · rw [List.dropLast_concat, List.getLast?_concat]
    rcases List.mem_append.mp hx with h | h
    · exact Or.inl h
    · simp only [List.mem_singleton] at h
      exact Or.inr (by rw [h])

theorem add_transaction_step (k : ℕ) (hk : 1 ≤ k) (fid : String) (now : ℤ)
    (tb : Option ℕ) (fee : ℕ) (bs : List Bundle) (tx : BundleTransaction)
    (h : bundlesWellFormed k bs) :
    bundlesWellFormed k (add_transaction_to_bundle k fid now tb fee bs tx)
    ∧ ((add_transaction_to_bundle k fid now tb fee bs tx).map
        (fun b => b.transactions.length)).sum
      = (bs.map fun b => b.transactions.length).sum + 1
    ∧ ((add_transaction_to_bundle k fid now tb fee bs tx).map
        Bundle.transactions).flatten
      = (bs.map Bundle.transactions).flatten ++ [tx] := by
  cases hlast : bs.getLast? with
  | none =>
    have hnil : bs = [] := List.getLast?_eq_none_iff.mp hlast
    subst hnil
    refine ⟨⟨?_, ?_⟩, ?_, ?_⟩ <;>
      simp [add_transaction_to_bundle, new_pending_bundle, hk]
  | some b =>
    obtain ⟨l', rfl⟩ := List.getLast?_eq_some_iff.mp hlast
    have hdrop : ∀ x ∈ l', x.transactions.length = k := by
      intro x hx
      exact h.1 x (by rw [List.dropLast_concat]; exact hx)
    have hlastb := h.2 b (List.getLast?_concat l')
    by_cases hlen : b.transactions.length < k
    · have heq : add_transaction_to_bundle k fid now tb fee (l' ++ [b]) tx
          = l' ++ [{ b with transactions := b.transactions ++ [tx] }] := by
        unfold add_transaction_to_bundle
        rw [List.getLast?_concat]
        simp only [if_pos hlen, List.dropLast_concat]
      rw [heq]
      refine ⟨⟨?_, ?_⟩, ?_, ?_⟩
      · intro x hx
        rw [List.dropLast_concat] at hx
        exact hdrop x hx
      · intro x hx
        rw [List.getLast?_concat] at hx
        cases hx
        constructor
        · simp
        · simp only [List.length_append, List.length_singleton]
          omega
      · simp only [List.map_append, List.sum_append, List.map_cons, List.map_nil,
          List.sum_cons, List.sum_nil, List.length_append, List.length_singleton]
        omega
      · simp only [List.map_append, List.flatten_append, List.map_cons, List.map_nil,
          List.flatten_cons, List.flatten_nil, List.append_nil, List.append_assoc]
    · have heq : add_transaction_to_bundle k fid now tb fee (l' ++ [b]) tx
          = (l' ++ [b]) ++ [new_pending_bundle fid now tb fee tx] := by
        unfold add_transaction_to_bundle
        rw [List.getLast?_concat]
        simp only [if_neg hlen]
      rw [heq]
      refine ⟨⟨?_, ?_⟩, ?_, ?_⟩
      · intro x hx
        rw [List.dropLast_concat] at hx
        rcases List.mem_append.mp hx with hx' | hx'
        · exact hdrop x hx'
        · simp only [List.mem_singleton] at hx'
          subst hx'
          omega
      · intro x hx
        rw [List.getLast?_concat] at hx
        cases hx
        constructor
        · simp [new_pending_bundle]
        · simp [new_pending_bundle]
          omega
      · simp only [List.map_append, List.sum_append, List.map_cons, List.map_nil,
          List.sum_cons, List.sum_nil, new_pending_bundle, List.length_singleton]
        omega
      · simp only [List.map_append, List.flatten_append, List.map_cons, List.map_nil,
          List.flatten_cons, List.flatten_nil, List.append_nil, List.append_assoc,
          new_pending_bundle]

theorem bundlesWellFormed_length (k : ℕ) (hk : 1 ≤ k) (bs : List Bundle)
    (h : bundlesWellFormed k bs) :
    bs.length = ((bs.map fun b => b.transactions.length).sum + k - 1) / k := by
  rcases List.eq_nil_or_concat' bs with rfl | ⟨l', b, rfl⟩
  · simp only [List.length_nil, List.map_nil, List.sum_nil, Nat.zero_add]
    rw [Nat.div_eq_of_lt (by omega)]
  · have hdrop : ∀ x ∈ l', x.transactions.length = k := by
      intro x hx
      exact h.1 x (by rw [List.dropLast_concat]; exact hx)
    have hlastb := h.2 b (List.getLast?_concat l')
    have hsum : ((l' ++ [b]).map fun x => x.transactions.length).sum
        = l'.length * k + b.transactions.length := by
      simp only [List.map_append, List.sum_append, List.map_cons, List.map_nil,
        List.sum_cons, List.sum_nil, Nat.add_zero]
      have hconst : (l'.map fun x => x.transactions.length).sum
          = (l'.map fun x => x.transactions.length).length • k := by
        apply List.sum_eq_card_nsmul
        intro x hx
        obtain ⟨y, hy, rfl⟩ := List.mem_map.mp hx
        exact hdrop y hy
      rw [hconst, List.length_map, smul_eq_mul]
    rw [hsum]
    have harith : l'.length * k + b.transactions.length + k - 1
        = (b.transactions.length - 1) + (l'.length + 1) * k := by
      have h1 := hlastb.1
      have h2 := hlastb.2
      have hmul : (l'.length + 1) * k = l'.length * k + k := by ring
      omega
    rw [harith, Nat.add_mul_div_right _ _ (by omega : 0 < k),
      Nat.div_eq_of_lt (by omega : b.transactions.length - 1 < k)]
    simp

theorem foldl_add_transaction (k : ℕ) (hk : 1 ≤ k) (fid : String) (now : ℤ)
    (tb : Option ℕ) (fee : ℕ) (txs : List BundleTransaction) :
    ∀ bs, bundlesWellFormed k bs →
      bundlesWellFormed k (txs.foldl (add_transaction_to_bundle k fid now tb fee) bs)
      ∧ ((txs.foldl (add_transaction_to_bundle k fid now tb fee) bs).map
          (fun b => b.transactions.length)).sum
        = (bs.map fun b => b.transactions.length).sum + txs.length
      ∧ ((txs.foldl (add_transaction_to_bundle k fid now tb fee) bs).map
          Bundle.transactions).flatten
        = (bs.map Bundle.transactions).flatten ++ txs := by
  induction txs with
  | nil =>
    intro bs h
    exact ⟨h, by simp, by simp⟩
  | cons tx rest ih =>
    intro bs h
    have hstep := add_transaction_step k hk fid now tb fee bs tx h
    have hih := ih (add_transaction_to_bundle k fid now tb fee bs tx) hstep.1
    refine ⟨?_, ?_, ?_⟩
    · simpa only [List.foldl_cons] using hih.1
    · simp only [List.foldl_cons]
      rw [hih.2.1, hstep.2.1]
      simp only [List.length_cons]
      omega
    · simp only [List.foldl_cons]
      rw [hih.2.2, hstep.2.2]
      simp

/-- C4: appending `N` transactions one by one via `add_transaction_to_bundle` to an
initially empty pending list produces exactly `⌈N/k⌉ = (N + k - 1) / k` bundles, each
holding at most `k` transactions, with the transactions distributed in creation order;
an append goes to the most recently opened bundle exactly when its size is strictly
below `k`, otherwise a fresh bundle is created. -/
theorem bundle_formation (k : ℕ) (hk : 1 ≤ k) (fid : String) (now : ℤ)
    (tb : Option ℕ) (fee : ℕ) (txs : List BundleTransaction) :
    (txs.foldl (add_transaction_to_bundle k fid now tb fee) []).length
      = (txs.length + k - 1) / k
    ∧ (∀ b ∈ txs.foldl (add_transaction_to_bundle k fid now tb fee) [],
        b.transactions.length ≤ k)
    ∧ ((txs.foldl (add_transaction_to_bundle k fid now tb fee) []).map
        Bundle.transactions).flatten = txs
    ∧ (∀ pending b tx, pending.getLast? = some b →
        (b.transactions.length < k →
          add_transaction_to_bundle k fid now tb fee pending tx
            = pending.dropLast
              ++ [{ b with transactions := b.transactions ++ [tx] }])
        ∧ (¬ b.transactions.length < k →
          add_transaction_to_bundle k fid now tb fee pending tx
            = pending ++ [new_pending_bundle fid now tb fee tx])) := by
  have hwfnil : bundlesWellFormed k [] := by
    constructor
    · intro b hb
      simp at hb
    · intro b hb
      simp at hb
  have hfold := foldl_add_transaction k hk fid now tb fee txs [] hwfnil
  refine ⟨?_, ?_, ?_, ?_⟩
  · rw [bundlesWellFormed_length k hk _ hfold.1, hfold.2.1]
    simp
  · intro b hb
    rcases mem_dropLast_or_getLast_eq _ b hb with h | h
    · exact (hfold.1.1 b h).le
    · exact (hfold.1.2 b h).2
  · simpa using hfold.2.2
  · intro pending b tx hlast
    obtain ⟨l', rfl⟩ := List.getLast?_eq_some_iff.mp hlast
    constructor
    · intro hlen
      unfold add_transaction_to_bundle
      rw [List.getLast?_concat]
      simp only [if_pos hlen, List.dropLast_concat]
    · intro hlen
      unfold add_transaction_to_bundle
      rw [List.getLast?_concat]
      simp only [if_neg hlen]

/-- A sample bundle transaction used by concrete witnesses. -/
def sampleTx (n : ℕ) : BundleTransaction :=
  { id := toString n
    instructions := [n]
    signers := []
    fee_payer := "payer"
    compute_units := 200000
    priority_fee := 0 }

/-- Witness for C4 at `k = 2` with three transactions: two bundles, each within
capacity. -/
theorem bundle_formation_witness :
    ([sampleTx 0, sampleTx 1, sampleTx 2].foldl
        (add_transaction_to_bundle 2 "b0" 7 none 5) []).length = 2
    ∧ (∀ b ∈ [sampleTx 0, sampleTx 1, sampleTx 2].foldl
        (add_transaction_to_bundle 2 "b0" 7 none 5) [], b.transactions.length ≤ 2) := by
  have h := bundle_formation 2 (by norm_num) "b0" 7 none 5
    [sampleTx 0, sampleTx 1, sampleTx 2]
  constructor
  · rw [h.1]
    simp
  · exact h.2.1

/-- `BundlerBot::should_submit_bundle` (src/src/bundler.rs:181-204). `now` stands for
`Utc::now()` in milliseconds and `current_slot` for the result of the `get_slot` RPC
call; the bundle is flagged when it is full, when it has waited longer than
`max_bundle_time_ms`, or when a set target block height has been reached. -/
def should_submit_bundle (max_bundle_size : ℕ) (max_bundle_time_ms : ℕ)
    (now : ℤ) (current_slot : ℕ) (bundle : Bundle) : Bool :=
  if bundle.transactions.length ≥ max_bundle_size then
    true
  else if now - bundle.created_at > (max_bundle_time_ms : ℤ) then
    true
  else
    match bundle.target_block with
    | some target_block => current_slot ≥ target_block
    | none => false

/-- C5: `should_submit_bundle` flags a bundle exactly when it has reached
`max_bundle_size` (regardless of age), or its age strictly exceeds
`max_bundle_time_ms` (regardless of size), or a target block height was set and the
current ledger height has reached it; with none of the three conditions it is not
flagged. -/
theorem should_submit_bundle_iff (max_bundle_size max_bundle_time_ms : ℕ)
    (now : ℤ) (current_slot : ℕ) (bundle : Bundle) :
    should_submit_bundle max_bundle_size max_bundle_time_ms now current_slot bundle
        = true
      ↔ bundle.transactions.length ≥ max_bundle_size
        ∨ now - bundle.created_at > (max_bundle_time_ms : ℤ)
        ∨ (∃ target_block, bundle.target_block = some target_block
            ∧ current_slot ≥ target_block) := by
  unfold should_submit_bundle
  by_cases h1 : bundle.transactions.length ≥ max_bundle_size
  · simp [h1]
  · by_cases h2 : now - bundle.created_at > (max_bundle_time_ms : ℤ)
    · simp [h1, h2]
    · cases htb : bundle.target_block with
      | none => simp [h1, h2, htb]
      | some t =>
        by_cases h3 : current_slot ≥ t
        · simp [h1, h2, htb, h3]
        · simp [h1, h2, htb, h3]

/-- `BundlerBot::cleanup_completed_bundles` (src/src/bundler.rs:356-365):
`bundle_history.drain(0..len - 1000)` removes the oldest entries whenever more than
1000 results are retained. -/
def cleanup_completed_bundles (bundle_history : List BundleResult) : List BundleResult :=
  if bundle_history.length > 1000 then
    bundle_history.drop (bundle_history.length - 1000)
  else
    bundle_history

/-- Bundle result number `i` of a synthetic insertion-ordered history. -/
def sampleResult (i : ℕ) : BundleResult :=
  { bundle_id := toString i
    bundle_signature := toString i
    success := true
    error := none
    submitted_at := (i : ℤ)
    confirmed_at := some (i : ℤ)
    total_transactions := 1
    priority_fee := 0 }

/-- C9: after a cleanup cycle the result history is exactly the suffix of the most
recent 1000 entries (older entries removed from the front, insertion order kept), so
its length is `min length 1000`; in particular 1050 inserted results are trimmed to
exactly the most recent 1000, in insertion order. -/
theorem cleanup_retention :
    (∀ bundle_history : List BundleResult,
      cleanup_completed_bundles bundle_history
          = bundle_history.drop (bundle_history.length - 1000)
        ∧ (cleanup_completed_bundles bundle_history).length
          = min bundle_history.length 1000)
    ∧ cleanup_completed_bundles ((List.range 1050).map sampleResult)
      = ((List.range 1050).map sampleResult).drop 50
    ∧ (cleanup_completed_bundles ((List.range 1050).map sampleResult)).length = 1000 := by
  have hgen : ∀ bundle_history : List BundleResult,
      cleanup_completed_bundles bundle_history
          = bundle_history.drop (bundle_history.length - 1000)
        ∧ (cleanup_completed_bundles bundle_history).length
          = min bundle_history.length 1000 := by
    intro h
    unfold cleanup_completed_bundles
    by_cases hlen : h.length > 1000
    · constructor
      · rw [if_pos hlen]
      · rw [if_pos hlen, List.length_drop]
        omega
    · constructor
      · rw [if_neg hlen]
        have : h.length - 1000 = 0 := by omega
        rw [this, List.drop_zero]
      · rw [if_neg hlen]
        omega
  have hlen1050 : ((List.range 1050).map sampleResult).length = 1050 := by
    rw [List.length_map, List.length_range]
  refine ⟨hgen, ?_, ?_⟩
  · rw [(hgen _).1, hlen1050]
  · rw [(hgen _).2, hlen1050]
    decide

/-- Outcome trace of one `submit_with_priority_fee` call: the returned result, the
backoff sleeps performed (in ms, in order), and how many RPC send attempts were made. -/
structure SubmitOutcome where
  result : Except BotError String
  sleeps_ms : List ℕ
  send_attempts : ℕ

/-- The `while retries < max_retries` loop of `BundlerBot::submit_with_priority_fee`
(src/src/bundler.rs:263-295), recursing on the remaining attempt budget
`max_retries - retries` (the `fuel` argument); `send n` is the outcome of the `n`-th
`send_transaction_with_config` call (0-based). After a failed attempt the counter is
bumped; when it reaches `max_retries` a terminal `Transaction` error is returned,
otherwise the loop sleeps `100 * retries` ms and tries again. -/
def submit_retry_loop (send : ℕ → Except String String) (max_retries : ℕ) :
    ℕ → ℕ → SubmitOutcome
  | _, 0 =>
    { result := Except.error
        (BotError.Transaction "Max retries exceeded for bundle submission")
      sleeps_ms := []
      send_attempts := 0 }
  | retries, fuel + 1 =>
    match send retries with
    | Except.ok signature =>
      { result := Except.ok signature, sleeps_ms := [], send_attempts := 1 }
    | Except.error e =>
      if retries + 1 ≥ max_retries then
        { result := Except.error (BotError.Transaction
            ("Failed to submit bundle after " ++ toString max_retries
              ++ " retries: " ++ e))
          sleeps_ms := []
          send_attempts := 1 }
      else
        let rest := submit_retry_loop send max_retries (retries + 1) fuel
        { result := rest.result
          sleeps_ms := 100 * (retries + 1) :: rest.sleeps_ms
          send_attempts := rest.send_attempts + 1 }

/-- `BundlerBot::submit_with_priority_fee` (src/src/bundler.rs:263-295):
`max_retries = 3`, starting at `retries = 0` with full budget. -/
def submit_with_priority_fee (send : ℕ → Except String String) : SubmitOutcome :=
  submit_retry_loop send 3 0 3

theorem submit_retry_loop_fuel_succ (send : ℕ → Except String String) (mr r f : ℕ) :
    submit_retry_loop send mr r (f + 1)
      = match send r with
        | Except.ok signature =>
          { result := Except.ok signature, sleeps_ms := [], send_attempts := 1 }
        | Except.error e =>
          if r + 1 ≥ mr then
            { result := Except.error (BotError.Transaction
                ("Failed to submit bundle after " ++ toString mr
                  ++ " retries: " ++ e))
              sleeps_ms := []
              send_attempts := 1 }
          else
            let rest := submit_retry_loop send mr (r + 1) f
            { result := rest.result
              sleeps_ms := 100 * (r + 1) :: rest.sleeps_ms
              send_attempts := rest.send_attempts + 1 } := rfl

theorem submit_retry_loop_attempts_le (send : ℕ → Except String String)
    (mr : ℕ) : ∀ f r, (submit_retry_loop send mr r f).send_attempts ≤ f := by
  intro f
  induction f with
  | zero =>
    intro r
    show (0 : ℕ) ≤ 0
    exact Nat.le_refl 0
  | succ f ih =>
    intro r
    rw [submit_retry_loop_fuel_succ]
    cases hs : send r with
    | ok s => simp
    | error e =>
      by_cases hmr : r + 1 ≥ mr
      · simp [hmr]
      · simp only [if_neg hmr]
        have hih := ih (r + 1)
        show (submit_retry_loop send mr (r + 1) f).send_attempts + 1 ≤ f + 1
        omega

/-- Result of one `BundlerBot::process_pending_bundles` pass over the shared state. -/
structure PendingPassResult where
  pending : List Bundle
  active : List (String × Bundle)
  history : List BundleResult
  deriving DecidableEq

/-- `BundlerBot::process_pending_bundles` (src/src/bundler.rs:138-179): every bundle
flagged by `should_submit` is submitted; a successful submission moves the bundle
(status `"submitted"`, signature recorded) into the active map and appends the result
to the history; a failed submission marks the bundle `"failed"` and records nothing.
Either way the flagged bundle's index is pushed to `to_remove`, so it leaves the
pending list; unflagged bundles stay in order. `submit` stands for `submit_bundle`,
whose outcome is fixed by the RPC collaborator. -/
def process_pending_bundles (should_submit : Bundle → Bool)
    (submit : Bundle → Except BotError BundleResult)
    (pending_bundles : List Bundle) (active_bundles : List (String × Bundle))
    (bundle_history : List BundleResult) : PendingPassResult :=
  { pending := pending_bundles.filter (fun b => !(should_submit b))
    active := active_bundles
      ++ (pending_bundles.filter should_submit).filterMap (fun b =>
          match submit b with
          | Except.ok result =>
            some (b.id,
              { b with
                  status := "submitted"
                  bundle_signature := some result.bundle_signature })
          | Except.error _ => none)
    history := bundle_history
      ++ (pending_bundles.filter should_submit).filterMap
          (fun b => (submit b).toOption) }

/-- C6: submission makes at most 3 send attempts, sleeping `100ms × attempt-number`
after each non-final failed attempt; a send path failing twice then succeeding returns
the signature having slept exactly 100ms and 200ms; three consecutive failures give a
terminal `Transaction` error after exactly 3 attempts with no further retry; and a
bundle whose submission fails is dropped from the pending list and never enters the
active map (only successfully submitted bundles do). -/
theorem submission_retry (send_ok3 send_fail : ℕ → Except String String)
    (sig e0 e1 : String)
    (h0 : send_ok3 0 = Except.error e0) (h1 : send_ok3 1 = Except.error e1)
    (h2 : send_ok3 2 = Except.ok sig)
    (hf : ∀ n, ∃ e, send_fail n = Except.error e) :
    (∀ send : ℕ → Except String String,
      (submit_with_priority_fee send).send_attempts ≤ 3)
    ∧ (submit_with_priority_fee send_ok3).result = Except.ok sig
    ∧ (submit_with_priority_fee send_ok3).sleeps_ms = [100, 200]
    ∧ (∃ msg, (submit_with_priority_fee send_fail).result
        = Except.error (BotError.Transaction msg))
    ∧ (submit_with_priority_fee send_fail).send_attempts = 3
    ∧ (submit_with_priority_fee send_fail).sleeps_ms = [100, 200]
    ∧ (∀ (should_submit : Bundle → Bool)
        (submit : Bundle → Except BotError BundleResult)
        (pending : List Bundle) (active : List (String × Bundle))
        (history : List BundleResult) (b : Bundle) (err : BotError),
        should_submit b = true → submit b = Except.error err →
        b ∉ (process_pending_bundles should_submit submit pending active
            history).pending
        ∧ ∀ entry ∈ (process_pending_bundles should_submit submit pending active
            history).active,
            entry ∈ active
            ∨ ∃ b' ∈ pending, should_submit b' = true ∧ (submit b').isOk = true
                ∧ entry.1 = b'.id) := by
  have hok2 : submit_retry_loop send_ok3 3 2 1
      = { result := Except.ok sig, sleeps_ms := [], send_attempts := 1 } := by
    rw [show (1 : ℕ) = 0 + 1 from rfl, submit_retry_loop_fuel_succ, h2]
  have hok1 : submit_retry_loop send_ok3 3 1 2
      = { result := Except.ok sig, sleeps_ms := [200], send_attempts := 2 } := by
    rw [show (2 : ℕ) = 1 + 1 from rfl, submit_retry_loop_fuel_succ, h1]
    simp only [if_neg (by norm_num : ¬ (1 : ℕ) + 1 ≥ 3)]
    rw [show (1 : ℕ) + 1 = 2 from rfl, hok2]
  have hok0 : submit_with_priority_fee send_ok3
      = { result := Except.ok sig, sleeps_ms := [100, 200], send_attempts := 3 } := by
    show submit_retry_loop send_ok3 3 0 (2 + 1) = _
    rw [submit_retry_loop_fuel_succ, h0]
    simp only [if_neg (by norm_num : ¬ (0 : ℕ) + 1 ≥ 3)]
    rw [show (0 : ℕ) + 1 = 1 from rfl, hok1]
  obtain ⟨ea, hfa⟩ := hf 0
  obtain ⟨eb, hfb⟩ := hf 1
  obtain ⟨ec, hfc⟩ := hf 2
  have hfl2 : submit_retry_loop send_fail 3 2 1
      = { result := Except.error (BotError.Transaction
            ("Failed to submit bundle after " ++ toString 3 ++ " retries: " ++ ec))
          sleeps_ms := []
          send_attempts := 1 } := by
    rw [show (1 : ℕ) = 0 + 1 from rfl, submit_retry_loop_fuel_succ, hfc]
    simp only [if_pos (by norm_num : (2 : ℕ) + 1 ≥ 3)]
  have hfl1 : submit_retry_loop send_fail 3 1 2
      = { result := Except.error (BotError.Transaction
            ("Failed to submit bundle after " ++ toString 3 ++ " retries: " ++ ec))
          sleeps_ms := [200]
          send_attempts := 2 } := by
    rw [show (2 : ℕ) = 1 + 1 from rfl, submit_retry_loop_fuel_succ, hfb]
    simp only [if_neg (by norm_num : ¬ (1 : ℕ) + 1 ≥ 3)]
    rw [show (1 : ℕ) + 1 = 2 from rfl, hfl2]
  have hfl0 : submit_with_priority_fee send_fail
      = { result := Except.error (BotError.Transaction
            ("Failed to submit bundle after " ++ toString 3 ++ " retries: " ++ ec))
          sleeps_ms := [100, 200]
          send_attempts := 3 } := by
    show submit_retry_loop send_fail 3 0 (2 + 1) = _
    rw [submit_retry_loop_fuel_succ, hfa]
    simp only [if_neg (by norm_num : ¬ (0 : ℕ) + 1 ≥ 3)]
    rw [show (0 : ℕ) + 1 = 1 from rfl, hfl1]
  refine ⟨?_, ?_, ?_, ?_, ?_, ?_, ?_⟩
  · intro send
    exact submit_retry_loop_attempts_le send 3 3 0
  · rw [hok0]
  · rw [hok0]
  · exact ⟨_, by rw [hfl0]⟩
  · rw [hfl0]
  · rw [hfl0]
  · intro should_submit submit pending active history b err hshould hsub
    constructor
    · intro hmem
      have := List.mem_filter.mp hmem
      rw [hshould] at this
      simp at this
    · intro entry hentry
      rcases List.mem_append.mp hentry with hentry | hentry
      · exact Or.inl hentry
      · obtain ⟨b', hb', hmatch⟩ := List.mem_filterMap.mp hentry
        have hb'mem := List.mem_filter.mp hb'
        cases hsub' : submit b' with
        | ok result =>
          rw [hsub'] at hmatch
          simp only [Option.some.injEq] at hmatch
          refine Or.inr ⟨b', hb'mem.1, hb'mem.2, by rw [hsub']; rfl, ?_⟩
          rw [← hmatch]
        | error e' =>
          rw [hsub'] at hmatch
          simp at hmatch

/-- A send path that fails on the first two attempts and succeeds on the third. -/
def sendFailTwice : ℕ → Except String String :=
  fun n => if n < 2 then Except.error "rpc unavailable" else Except.ok "sig111"

/-- A send path that fails on every attempt. -/
def sendAlwaysFail : ℕ → Except String String :=
  fun _ => Except.error "rpc unavailable"

/-- Witness for C6: the fail-fail-succeed path returns the signature with backoffs
100ms and 200ms, and the always-failing path stops after exactly 3 attempts. -/
theorem submission_retry_witness :
    (submit_with_priority_fee sendFailTwice).result = Except.ok "sig111"
    ∧ (submit_with_priority_fee sendFailTwice).sleeps_ms = [100, 200]
    ∧ (submit_with_priority_fee sendAlwaysFail).send_attempts = 3
    ∧ (submit_with_priority_fee sendAlwaysFail).sleeps_ms = [100, 200] := by
  have h := submission_retry sendFailTwice sendAlwaysFail "sig111"
    "rpc unavailable" "rpc unavailable" rfl rfl rfl
    (fun n => ⟨"rpc unavailable", rfl⟩)
  exact ⟨h.2.1, h.2.2.1, h.2.2.2.2.1, h.2.2.2.2.2.1⟩

/-- `TradingConfig` (src/src/config.rs). -/
structure TradingConfig where
  max_concurrent_trades : ℕ
  trade_timeout_secs : ℕ
  profit_taking_percentage : ℚ
  stop_loss_percentage : ℚ
  max_daily_trades : ℕ
  max_daily_loss_sol : ℚ
  risk_per_trade : ℚ
  auto_rebalance : Bool
  deriving DecidableEq

/-- `SniperStrategy` (src/src/types.rs). -/
inductive SniperStrategy where
  | CreatorToken
  | CommunityToken
  | HighVolume
  | LowMarketCap
  | FlywheelActive
  | Custom (name : String)
  deriving DecidableEq

/-- `SnipeStatus` (src/src/sniper.rs:46-52). -/
inductive SnipeStatus where
  | Pending
  | Executed
  | Failed
  | Sold
  deriving DecidableEq

/-- `ActiveSnipe` (src/src/sniper.rs:36-44). -/
structure ActiveSnipe where
  token_mint : String
  strategy : SniperStrategy
  entry_price : ℚ
  entry_time : ℤ
  trade_amount : ℚ
  status : SnipeStatus
  deriving DecidableEq

/-- `Trade` (src/src/types.rs). -/
structure Trade where
  id : String
  token_mint : String
  trade_type : String
  amount_sol : ℚ
  token_amount : ℚ
  price : ℚ
  slippage : ℚ
  strategy : SniperStrategy
  timestamp : ℤ
  status : String
  transaction_signature : Option String
  deriving DecidableEq

/-- `CopyTrade` (src/src/types.rs). -/
structure CopyTrade where
  id : String
  original_trade_id : String
  trader_address : String
  trader_name : String
  token_mint : String
  trade_type : String
  amount_sol : ℚ
  token_amount : ℚ
  price : ℚ
  slippage : ℚ
  timestamp : ℤ
  status : String
  transaction_signature : Option String
  deriving DecidableEq

/-- `SniperBot::should_sell_snipe` (src/src/sniper.rs:378-389). `price_fetch` is the
result of the `get_token_price` call; on a fetch failure the function returns
`false`. -/
def should_sell_snipe (trading : TradingConfig) (price_fetch : Except BotError ℚ)
    (snipe : ActiveSnipe) : Bool :=
  match price_fetch with
  | Except.ok current_price =>
    let price_change := (current_price - snipe.entry_price) / snipe.entry_price
    decide (price_change ≥ trading.profit_taking_percentage)
      || decide (price_change ≤ -trading.stop_loss_percentage)
  | Except.error _ => false

/-- `CopyTraderBot::should_close_copy_trade` (src/src/copy_trader.rs:389-407).
`original_lookup` is the result of `database.get_trade(original_trade_id)`; a close is
also triggered when the mirrored original trade is reported `"closed"` or `"sold"`.
`price_fetch` is the result of `get_token_price`; `copy_trade.price` is the recorded
entry price. -/
def should_close_copy_trade (trading : TradingConfig)
    (original_lookup : Except BotError Trade) (price_fetch : Except BotError ℚ)
    (copy_trade : CopyTrade) : Bool :=
  let threshold_check : Bool :=
    match price_fetch with
    | Except.ok current_price =>
      let price_change := (current_price - copy_trade.price) / copy_trade.price
      decide (price_change ≥ trading.profit_taking_percentage)
        || decide (price_change ≤ -trading.stop_loss_percentage)
    | Except.error _ => false
  match original_lookup with
  | Except.ok original_trade =>
    if original_trade.status == "closed" || original_trade.status == "sold" then
      true
    else
      threshold_check
  | Except.error _ => threshold_check

/-- The exit configuration of the spec's examples: profit taking 0.2, stop loss 0.1. -/
def exitTradingConfig : TradingConfig :=
  { max_concurrent_trades := 10
    trade_timeout_secs := 60
    profit_taking_percentage := 1/5
    stop_loss_percentage := 1/10
    max_daily_trades := 100
    max_daily_loss_sol := 10
    risk_per_trade := 1/50
    auto_rebalance := false }

/-- A sniped position entered at price 1.0. -/
def entryOneSnipe : ActiveSnipe :=
  { token_mint := "TKNMint111"
    strategy := SniperStrategy.CommunityToken
    entry_price := 1
    entry_time := 0
    trade_amount := 1/2
    status := SnipeStatus.Executed }

/-- A mirrored original trade already reported closed by its owner. -/
def closedOriginalTrade : Trade :=
  { id := "orig1"
    token_mint := "TKNMint111"
    trade_type := "buy"
    amount_sol := 1
    token_amount := 100
    price := 1
    slippage := 1/100
    strategy := SniperStrategy.CommunityToken
    timestamp := 0
    status := "closed"
    transaction_signature := none }

/-- A copy-trade position entered at price 1.0. -/
def entryOneCopyTrade : CopyTrade :=
  { id := "copy1"
    original_trade_id := "orig1"
    trader_address := "trader"
    trader_name := "T"
    token_mint := "TKNMint111"
    trade_type := "buy"
    amount_sol := 1/2
    token_amount := 0
    price := 1
    slippage := 1/100
    timestamp := 0
    status := "pending"
    transaction_signature := none }

/-- C7 (counterexample): for copy-trade positions the close trigger is NOT equivalent
to the profit/stop-loss threshold condition — `should_close_copy_trade` also fires
when the mirrored original trade is reported closed, here at current price 1.0 with
entry 1.0 where the relative change 0 is inside the (0.2, 0.1) thresholds. -/
theorem copy_close_not_threshold_iff :
    should_close_copy_trade exitTradingConfig (Except.ok closedOriginalTrade)
        (Except.ok 1) entryOneCopyTrade = true
    ∧ ¬(((1 : ℚ) - entryOneCopyTrade.price) / entryOneCopyTrade.price
          ≥ exitTradingConfig.profit_taking_percentage
        ∨ ((1 : ℚ) - entryOneCopyTrade.price) / entryOneCopyTrade.price
          ≤ -exitTradingConfig.stop_loss_percentage) := by
  constructor
  · rfl
  · simp only [entryOneCopyTrade, exitTradingConfig]
    norm_num

/-- C7 (amended): with the current price successfully fetched, a sniped position is
closed exactly when the relative change `(c - e)/e` reaches the profit-taking fraction
or falls to the negated stop-loss fraction; a copy-trade position obeys the same
threshold condition whenever the mirrored original trade is not reported closed/sold
(on a successful lookup) — otherwise the close also fires; the spec's examples at
entry 1.0, profit 0.2, stop 0.1 hold for both kinds of positions. -/
theorem position_exit_threshold (trading : TradingConfig) (current_price : ℚ)
    (snipe : ActiveSnipe) (copy_trade : CopyTrade)
    (original_lookup : Except BotError Trade)
    (horig : ∀ t, original_lookup = Except.ok t →
        t.status ≠ "closed" ∧ t.status ≠ "sold") :
    (should_sell_snipe trading (Except.ok current_price) snipe = true
      ↔ (current_price - snipe.entry_price) / snipe.entry_price
          ≥ trading.profit_taking_percentage
        ∨ (current_price - snipe.entry_price) / snipe.entry_price
          ≤ -trading.stop_loss_percentage)
    ∧ (should_close_copy_trade trading original_lookup (Except.ok current_price)
          copy_trade = true
      ↔ (current_price - copy_trade.price) / copy_trade.price
          ≥ trading.profit_taking_percentage
        ∨ (current_price - copy_trade.price) / copy_trade.price
          ≤ -trading.stop_loss_percentage)
    ∧ should_sell_snipe exitTradingConfig (Except.ok (121/100)) entryOneSnipe = true
    ∧ should_sell_snipe exitTradingConfig (Except.ok (89/100)) entryOneSnipe = true
    ∧ should_sell_snipe exitTradingConfig (Except.ok (105/100)) entryOneSnipe = false
    ∧ should_close_copy_trade exitTradingConfig
        (Except.error (BotError.Database "row not found")) (Except.ok (121/100))
        entryOneCopyTrade = true
    ∧ should_close_copy_trade exitTradingConfig
        (Except.error (BotError.Database "row not found")) (Except.ok (89/100))
        entryOneCopyTrade = true
    ∧ should_close_copy_trade exitTradingConfig
        (Except.error (BotError.Database "row not found")) (Except.ok (105/100))
        entryOneCopyTrade = false := by
  refine ⟨?_, ?_, ?_, ?_, ?_, ?_, ?_, ?_⟩
  · simp [should_sell_snipe, Bool.or_eq_true, decide_eq_true_eq]
  · cases hol : original_lookup with
    | error e =>
      simp [should_close_copy_trade, Bool.or_eq_true, decide_eq_true_eq]
    | ok t =>
      obtain ⟨hc, hs⟩ := horig t hol
      simp [should_close_copy_trade, hc, hs, Bool.or_eq_true, decide_eq_true_eq]
  · simp only [should_sell_snipe, entryOneSnipe, exitTradingConfig,
      Bool.or_eq_true, decide_eq_true_eq]
    norm_num
  · simp only [should_sell_snipe, entryOneSnipe, exitTradingConfig,
      Bool.or_eq_true, decide_eq_true_eq]
    norm_num
  · simp only [should_sell_snipe, entryOneSnipe, exitTradingConfig,
      Bool.or_eq_false_iff, decide_eq_false_iff_not]
    norm_num
  · simp only [should_close_copy_trade, entryOneCopyTrade, exitTradingConfig,
      Bool.or_eq_true, decide_eq_true_eq]
    norm_num
  · simp only [should_close_copy_trade, entryOneCopyTrade, exitTradingConfig,
      Bool.or_eq_true, decide_eq_true_eq]
    norm_num
  · simp only [should_close_copy_trade, entryOneCopyTrade, exitTradingConfig,
      Bool.or_eq_false_iff, decide_eq_false_iff_not]
    norm_num

/-- Witness for C7 (amended) at concrete inputs: entry 1.0, current price 1.05,
original lookup failing (no original reported closed). -/
theorem position_exit_threshold_witness :
    (∀ t : Trade, (Except.error (BotError.Database "row not found")
        : Except BotError Trade) = Except.ok t →
      t.status ≠ "closed" ∧ t.status ≠ "sold")
    ∧ should_sell_snipe exitTradingConfig (Except.ok (105/100)) entryOneSnipe = false
    ∧ should_close_copy_trade exitTradingConfig
        (Except.error (BotError.Database "row not found")) (Except.ok (105/100))
        entryOneCopyTrade = false := by
  have hvac : ∀ t : Trade, (Except.error (BotError.Database "row not found")
      : Except BotError Trade) = Except.ok t →
      t.status ≠ "closed" ∧ t.status ≠ "sold" := by
    intro t h
    cases h
  have h := position_exit_threshold exitTradingConfig (105/100) entryOneSnipe
    entryOneCopyTrade (Except.error (BotError.Database "row not found")) hvac
  exact ⟨hvac, h.2.2.2.2.1, h.2.2.2.2.2.2.2⟩

/-- `TokenLaunch` (src/src/types.rs). -/
structure TokenLaunch where
  token_mint : String
  token_name : String
  token_symbol : String
  launch_time : ℤ
  initial_price : ℚ
  price : ℚ
  market_cap : ℚ
  liquidity_sol : ℚ
  volume_24h : ℚ
  token_type : String
  has_flywheel : Bool
  flywheel_activity : ℚ
  creator_address : Option String
  social_links : List String
  description : String
  deriving DecidableEq

/-- Collaborator outcomes for one sniper scan tick: the launchpad fetch
(`heaven_client.scan_new_launches`), the strategy evaluation
(`SniperBot::evaluate_launch`), the snipe execution (`SniperBot::execute_snipe`), and
the tick's completion time `Utc::now()`. -/
structure SniperTickInput where
  fetch : Except BotError (List TokenLaunch)
  evaluate : TokenLaunch → Option SniperStrategy
  execute : TokenLaunch → SniperStrategy → Except BotError Unit
  now : ℤ

/-- `SniperBot::scan_new_launches` (src/src/sniper.rs:122-145). The fetch is lifted
with `?` (so a fetch failure returns before touching the watermark); every launch
newer than the watermark is evaluated, a matched strategy triggers an execution whose
failure is only logged; at the end the watermark is set to `Utc::now()`. Returns the
new watermark and the log of attempted snipes (mint, execution success). -/
def scan_new_launches (tick : SniperTickInput) (last_scan : ℤ) :
    Except BotError (ℤ × List (String × Bool)) :=
  match tick.fetch with
  | Except.error e => Except.error e
  | Except.ok new_launches =>
    let snipe_attempts := new_launches.filterMap (fun launch =>
      if last_scan < launch.launch_time then
        match tick.evaluate launch with
        | some strategy =>
          some (launch.token_mint, (tick.execute launch strategy).isOk)
        | none => none
      else none)
    Except.ok (tick.now, snipe_attempts)

/-- One iteration of `SniperBot::main_sniper_loop` (src/src/sniper.rs:96-120) restricted
to the watermark state: a scan failure is logged (`warn!`) and the loop `continue`s
with the watermark unchanged; a successful scan leaves the watermark the scan set. -/
def main_sniper_tick (tick : SniperTickInput) (last_scan : ℤ) : ℤ :=
  match scan_new_launches tick last_scan with
  | Except.error _ => last_scan
  | Except.ok (watermark, _) => watermark

/-- `SniperBot::main_sniper_loop` (src/src/sniper.rs:96-120) over a finite schedule of
tick inputs: every tick runs regardless of earlier failures. -/
def main_sniper_loop (ticks : List SniperTickInput) (last_scan : ℤ) : ℤ :=
  ticks.foldl (fun ls tick => main_sniper_tick tick ls) last_scan

/-- A tick whose launchpad fetch fails, at completion time 5. -/
def failingFetchTick : SniperTickInput :=
  { fetch := Except.error (BotError.Network "scan failed")
    evaluate := fun _ => none
    execute := fun _ _ => Except.ok ()
    now := 5 }

/-- C8 (counterexample): when the listing fetch fails, `scan_new_launches` returns
through `?` before the assignment `*last_scan = Utc::now()` is reached, so the
watermark is NOT advanced to the tick's completion time: with watermark 0 and
completion time 5 it stays 0. -/
theorem watermark_not_advanced_on_fetch_failure :
    main_sniper_tick failingFetchTick 0 = 0
    ∧ failingFetchTick.now = 5
    ∧ main_sniper_tick failingFetchTick 0 ≠ failingFetchTick.now := by
  refine ⟨rfl, rfl, ?_⟩
  intro h
  exact absurd h (by decide)

/-- C8 (amended): the watermark is advanced to the tick's completion time at the end
of every tick whose listing fetch succeeds — even when evaluating or executing a snipe
for some listing fails — while a tick whose fetch fails leaves the watermark
unchanged; no failure terminates the loop: the tick after a failing tick runs and
advances the watermark as usual. -/
theorem watermark_advance (tick : SniperTickInput) (launches : List TokenLaunch)
    (last_scan : ℤ) (e : BotError)
    (hok : tick.fetch = Except.ok launches) :
    main_sniper_tick tick last_scan = tick.now
    ∧ (∀ t : SniperTickInput, t.fetch = Except.error e →
        main_sniper_tick t last_scan = last_scan)
    ∧ (∀ t1 t2 : SniperTickInput, ∀ ls : ℤ, t1.fetch = Except.error e →
        t2.fetch = Except.ok launches →
        main_sniper_loop [t1, t2] ls = t2.now) := by
  have hok_tick : ∀ (t : SniperTickInput) (ls : ℤ), t.fetch = Except.ok launches →
      main_sniper_tick t ls = t.now := by
    intro t ls h
    unfold main_sniper_tick scan_new_launches
    rw [h]
  have herr_tick : ∀ (t : SniperTickInput) (ls : ℤ), t.fetch = Except.error e →
      main_sniper_tick t ls = ls := by
    intro t ls h
    unfold main_sniper_tick scan_new_launches
    rw [h]
  refine ⟨hok_tick tick last_scan hok, fun t ht => herr_tick t last_scan ht, ?_⟩
  intro t1 t2 ls h1 h2
  show main_sniper_tick t2 (main_sniper_tick t1 ls) = t2.now
  rw [herr_tick t1 ls h1, hok_tick t2 ls h2]

/-- A launch listed at time 3. -/
def sampleLaunch : TokenLaunch :=
  { token_mint := "NewMint111"
    token_name := "New Token 1"
    token_symbol := "NT1"
    launch_time := 3
    initial_price := 1/1000
    price := 1/1000
    market_cap := 1000
    liquidity_sol := 1
    volume_24h := 100
    token_type := "community"
    has_flywheel := false
    flywheel_activity := 0
    creator_address := none
    social_links := []
    description := "A new community token" }

/-- A tick whose fetch succeeds but whose snipe execution fails, at completion
time 9. -/
def failingExecTick : SniperTickInput :=
  { fetch := Except.ok [sampleLaunch]
    evaluate := fun _ => some SniperStrategy.CommunityToken
    execute := fun _ _ => Except.error (BotError.Transaction "submit failed")
    now := 9 }

/-- Witness for C8 (amended): a tick with a failing snipe execution still advances
the watermark to 9, and the loop past a failed-fetch tick still reaches it. -/
theorem watermark_advance_witness :
    failingExecTick.fetch = Except.ok [sampleLaunch]
    ∧ main_sniper_tick failingExecTick 0 = failingExecTick.now
    ∧ main_sniper_loop [failingFetchTick, failingExecTick] 0 = failingExecTick.now := by
  have h := watermark_advance failingExecTick [sampleLaunch] 0
    (BotError.Network "scan failed") rfl
  exact ⟨rfl, h.1, h.2.2 failingFetchTick failingExecTick 0 rfl rfl⟩

/-- The token-account balance payload returned by the
`get_token_account_balance` RPC call (`UiTokenAmount`): a decimal string plus the
mint's decimals. -/
structure TokenAccountBalance where
  amount : String
  decimals : ℕ
  deriving DecidableEq

/-- Rust `str::parse::<u64>()` on the balance string. -/
def parse_u64 (s : String) : Except String ℕ :=
  match s.toNat? with
  | some n =>
    if n < 2 ^ 64 then Except.ok n
    else Except.error "number too large to fit in target type"
  | none => Except.error "invalid digit found in string"

/-- `HeavenClient::get_token_balance` (src/src/heaven_client.rs:67-84). `mint_pubkey`
is the outcome of `Pubkey::from_str(token_mint)`, `balance_query` the outcome of the
`get_token_account_balance` RPC call on the derived associated token account. A failed
query is mapped to `Ok(0.0)` (the token account does not exist); only a successful
query whose amount string fails to parse yields a `Token` error. -/
def get_token_balance (mint_pubkey : Except String String)
    (balance_query : Except String TokenAccountBalance) : Except BotError ℚ :=
  match mint_pubkey with
  | Except.error e => Except.error (BotError.Validation ("Invalid token mint: " ++ e))
  | Except.ok _ =>
    match balance_query with
    | Except.ok balance =>
      match parse_u64 balance.amount with
      | Except.ok amount =>
        Except.ok ((amount : ℚ) / 10 ^ balance.decimals)
      | Except.error e =>
        Except.error (BotError.Token ("Failed to parse token balance: " ++ e))
    | Except.error _ => Except.ok 0

/-- `CopyTraderConfig` (src/src/config.rs). -/
structure CopyTraderConfig where
  enabled : Bool
  max_sol_per_trade : ℚ
  copy_percentage : ℚ
  max_traders : ℕ
  min_trader_balance : ℚ
  min_trader_profit : ℚ
  blacklisted_traders : List String
  whitelisted_traders : List String
  delay_ms : ℕ
  auto_approve : Bool
  deriving DecidableEq

/-- `CopyTraderBot::should_copy_trade` (src/src/copy_trader.rs:201-225).
`active_trades_len` is the size of the live copy-trade working set, `sol_balance` the
outcome of `get_sol_balance` (`unwrap_or(0.0)`), and `token_balance` the outcome of
`get_token_balance` for the trade's mint (`unwrap_or(0.0)`): a sell is copied only
with a strictly positive holding. -/
def should_copy_trade (cfg : CopyTraderConfig) (active_trades_len : ℕ)
    (sol_balance : Except BotError ℚ) (trade : Trade)
    (token_balance : Except BotError ℚ) : Bool :=
  if active_trades_len ≥ cfg.max_traders then
    false
  else
    let balance := sol_balance.toOption.getD 0
    let copy_amount := trade.amount_sol * cfg.copy_percentage
    if balance < copy_amount then
      false
    else
      match trade.trade_type with
      | "buy" => true
      | "sell" => decide (token_balance.toOption.getD 0 > 0)
      | _ => false

/-- C10: for a token mint that parses, a failed associated-token-account balance query
makes `get_token_balance` return `Ok(0.0)` rather than propagating the failure; the
copy-sell eligibility check therefore behaves exactly as with a zero holding, and in
particular does not copy the sell. -/
theorem token_balance_query_failure_returns_zero
    (pk e : String) (balance_query : Except String TokenAccountBalance)
    (cfg : CopyTraderConfig) (active_trades_len : ℕ)
    (sol_balance : Except BotError ℚ) (trade : Trade)
    (hq : balance_query = Except.error e) :
    get_token_balance (Except.ok pk) balance_query = Except.ok 0
    ∧ should_copy_trade cfg active_trades_len sol_balance trade
        (get_token_balance (Except.ok pk) balance_query)
      = should_copy_trade cfg active_trades_len sol_balance trade (Except.ok 0)
    ∧ (trade.trade_type = "sell" →
        should_copy_trade cfg active_trades_len sol_balance trade
          (get_token_balance (Except.ok pk) balance_query) = false) := by
  subst hq
  refine ⟨rfl, rfl, ?_⟩
  intro hsell
  unfold should_copy_trade
  by_cases hcap : active_trades_len ≥ cfg.max_traders
  · rw [if_pos hcap]
  · rw [if_neg hcap]
    by_cases hbal : sol_balance.toOption.getD 0 < trade.amount_sol * cfg.copy_percentage
    · rw [if_pos hbal]
    · rw [if_neg hbal]
      rw [hsell]
      simp [get_token_balance, Except.toOption, Option.getD]

/-- A copy-trader configuration with spare capacity. -/
def sampleCopyTraderConfig : CopyTraderConfig :=
  { enabled := true
    max_sol_per_trade := 1
    copy_percentage := 1/10
    max_traders := 10
    min_trader_balance := 100
    min_trader_profit := 3/5
    blacklisted_traders := []
    whitelisted_traders := []
    delay_ms := 1000
    auto_approve := false }

/-- A sell-type trade observed from a tracked trader. -/
def observedSellTrade : Trade :=
  { id := "t1"
    token_mint := "TKNMint111"
    trade_type := "sell"
    amount_sol := 1
    token_amount := 100
    price := 1/100
    slippage := 1/100
    strategy := SniperStrategy.CommunityToken
    timestamp := 0
    status := "pending"
    transaction_signature := none }

/-- Witness for C10: a concrete failed balance query yields `Ok 0`, and the sell is
not copied. -/
theorem token_balance_query_failure_witness :
    get_token_balance (Except.ok "mintpk")
        (Except.error "AccountNotFound") = Except.ok 0
    ∧ should_copy_trade sampleCopyTraderConfig 0 (Except.ok 10) observedSellTrade
        (get_token_balance (Except.ok "mintpk") (Except.error "AccountNotFound"))
      = false := by
  have h := token_balance_query_failure_returns_zero "mintpk" "AccountNotFound"
    (Except.error "AccountNotFound") sampleCopyTraderConfig 0 (Except.ok 10)
    observedSellTrade rfl
  exact ⟨h.1, h.2.2 rfl⟩

end HeavenBot
